import Mathlib

/-!
Verification of the tool-dispatch / response-normalization core of the
monoliet MCP server (Python sources: `src/n8n_client.py`, `src/tools/*.py`).

The embedding is shallow: Python JSON values become the inductive `Val`,
Python dicts become association lists, exceptions become explicit sum
types, and the upstream workflow engine / HTTP transport become explicit
oracles or stores.  Python floats that arise (execution-rate percentages)
are modelled as exact rationals; `round2` models Python's `round(x, 2)`.
-/

set_option autoImplicit false

namespace MonolietMCP

/-- A JSON-like value, as passed around by the Python code (tool arguments,
workflow objects, execution objects, response payloads).  `rat` stands for
Python floats (the only ones produced by the code are the two rate
percentages); all other constructors match JSON directly. -/
inductive Val where
  | null : Val
  | bool (b : Bool) : Val
  | int (n : Int) : Val
  | rat (q : ℚ) : Val
  | str (s : String) : Val
  | arr (elems : List Val) : Val
  | obj (fields : List (String × Val)) : Val

mutual

/-- Structural equality test for `Val` (nested, so not derivable). -/
def Val.beq : Val → Val → Bool
  | .null, .null => true
  | .bool a, .bool b => a == b
  | .int a, .int b => a == b
  | .rat a, .rat b => a == b
  | .str a, .str b => a == b
  | .arr a, .arr b => Val.beqList a b
  | .obj a, .obj b => Val.beqFields a b
  | _, _ => false

/-- Elementwise `Val.beq` on lists. -/
def Val.beqList : List Val → List Val → Bool
  | [], [] => true
  | a :: as, b :: bs => Val.beq a b && Val.beqList as bs
  | _, _ => false

/-- Entrywise `Val.beq` on field lists. -/
def Val.beqFields : List (String × Val) → List (String × Val) → Bool
  | [], [] => true
  | (k, v) :: as, (k2, v2) :: bs => k == k2 && Val.beq v v2 && Val.beqFields as bs
  | _, _ => false

end

mutual

theorem Val.beq_refl : ∀ v : Val, Val.beq v v = true
  | .null => rfl
  | .bool b => by simp [Val.beq]
  | .int n => by simp [Val.beq]
  | .rat q => by simp [Val.beq]
  | .str s => by simp [Val.beq]
  | .arr elems => by simp [Val.beq, Val.beqList_refl elems]
  | .obj fields => by simp [Val.beq, Val.beqFields_refl fields]

theorem Val.beqList_refl : ∀ xs : List Val, Val.beqList xs xs = true
  | [] => rfl
  | x :: xs => by simp [Val.beqList, Val.beq_refl x, Val.beqList_refl xs]

theorem Val.beqFields_refl : ∀ xs : List (String × Val), Val.beqFields xs xs = true
  | [] => rfl
  | (k, v) :: xs => by simp [Val.beqFields, Val.beq_refl v, Val.beqFields_refl xs]

end

mutual

theorem Val.eq_of_beq : ∀ {a b : Val}, Val.beq a b = true → a = b
  | .null, .null, _ => rfl
  | .bool _, .bool _, h => by simpa [Val.beq] using h
  | .int _, .int _, h => by simpa [Val.beq] using h
  | .rat _, .rat _, h => by simpa [Val.beq] using h
  | .str _, .str _, h => by simpa [Val.beq] using h
  | .arr a, .arr b, h => by
    rw [Val.eqList_of_beq (a := a) (b := b) (by simpa [Val.beq] using h)]
  | .obj a, .obj b, h => by
    rw [Val.eqFields_of_beq (a := a) (b := b) (by simpa [Val.beq] using h)]

theorem Val.eqList_of_beq : ∀ {a b : List Val}, Val.beqList a b = true → a = b
  | [], [], _ => rfl
  | x :: xs, y :: ys, h => by
    simp only [Val.beqList, Bool.and_eq_true] at h
    rw [Val.eq_of_beq h.1, Val.eqList_of_beq h.2]

theorem Val.eqFields_of_beq : ∀ {a b : List (String × Val)}, Val.beqFields a b = true → a = b
  | [], [], _ => rfl
  | (k, v) :: xs, (k2, v2) :: ys, h => by
    simp only [Val.beqFields, Bool.and_eq_true] at h
    obtain ⟨⟨hk, hv⟩, hrest⟩ := h
    have hk2 : k = k2 := by simpa using hk
    rw [hk2, Val.eq_of_beq hv, Val.eqFields_of_beq hrest]

end

instance : DecidableEq Val := fun a b =>
  decidable_of_iff (Val.beq a b = true)
    ⟨Val.eq_of_beq, fun h => h ▸ Val.beq_refl a⟩

/-- First-match lookup in an association list; models Python `dict[k]` /
`k in dict` (Python dict keys are unique, so first-match is exact). -/
def lookupField : List (String × Val) → String → Option Val
  | [], _ => none
  | (k, v) :: rest, key => if k = key then some v else lookupField rest key

/-- Python truthiness (`if x:`) for the modelled values. -/
def truthy : Val → Bool
  | .null => false
  | .bool b => b
  | .int n => n != 0
  | .rat q => q != 0
  | .str s => s ≠ ""
  | .arr elems => !elems.isEmpty
  | .obj fields => !fields.isEmpty

/-- Python `str(x)` as used in f-string error messages.  Containers are
rendered approximately; no claim inspects a rendered container. -/
def pyStr : Val → String
  | .null => "None"
  | .bool b => if b then "True" else "False"
  | .int n => toString n
  | .rat q => toString q
  | .str s => s
  | .arr _ => "<list>"
  | .obj _ => "<dict>"

/-- `arguments.get(key, default)` on a tool-argument map. -/
def argsGetD (args : List (String × Val)) (key : String) (default : Val) : Val :=
  (lookupField args key).getD default

/-- `v.get(key, default)` on an arbitrary value: `none` models the
`AttributeError` Python raises when `v` is not a dict. -/
def dictGetD (v : Val) (key : String) (default : Val) : Option Val :=
  match v with
  | .obj fields => some ((lookupField fields key).getD default)
  | _ => none

/-- The exception taxonomy of `n8n_client.py` (`N8NError` and its four
subclasses).  `apiError` is the base `N8NError` raised for unclassified
HTTP failures. -/
inductive N8NError where
  | connectionError (msg : String) : N8NError
  | authError (msg : String) : N8NError
  | notFoundError (msg : String) : N8NError
  | validationError (msg : String) : N8NError
  | apiError (msg : String) : N8NError
deriving DecidableEq

/-- `str(e)` for an `N8NError`: the message it was constructed with. -/
def N8NError.message : N8NError → String
  | .connectionError msg => msg
  | .authError msg => msg
  | .notFoundError msg => msg
  | .validationError msg => msg
  | .apiError msg => msg

/-- An upstream HTTP response as seen by `_handle_response`:
status code, parsed JSON body (`none` = empty content), and
`statusText` standing for `str(HTTPStatusError)` (the raw status text
used when no JSON `message` field is available). -/
structure HttpResponse where
  status : Nat
  body : Option Val
  statusText : String
deriving DecidableEq

/-- The error message extracted by `_handle_response` on a non-2xx
response: `e.response.json().get("message", str(e))`, falling back to
`str(e)` when the body is missing, not an object, or lacks a
`message` field (n8n_client.py:120-124). -/
def upstreamMessage (r : HttpResponse) : String :=
  match r.body with
  | some (.obj fields) =>
    match lookupField fields ("message") with
    | some v => pyStr v
    | none => r.statusText
  | _ => r.statusText

/-- `N8NClient._handle_response` (n8n_client.py:92-138): 2xx with a 204
status or empty body yields an empty object, other 2xx yields the parsed
body; non-2xx raises by status class with the upstream message. -/
def handle_response (r : HttpResponse) : Except N8NError Val :=
  if 200 ≤ r.status ∧ r.status < 300 then
    if r.status = 204 ∨ r.body = none then .ok (.obj [])
    else .ok (r.body.getD (.obj []))
  else
    let msg := upstreamMessage r
    if r.status = 401 ∨ r.status = 403 then
      .error (.authError ("Authentication failed: " ++ msg))
    else if r.status = 404 then
      .error (.notFoundError ("Resource not found: " ++ msg))
    else if r.status = 400 then
      .error (.validationError ("Validation error: " ++ msg))
    else
      .error (.apiError ("n8n API error: " ++ msg))

/-- Outcome of the underlying HTTP transport for one request: a
network-level failure (connection error / timeout, after the retry
policy is exhausted) or a delivered response. -/
inductive TransportOutcome where
  | netFail (msg : String) : TransportOutcome
  | response (r : HttpResponse) : TransportOutcome
deriving DecidableEq

/-- `N8NClient._request` (n8n_client.py:146-177): network failures become
`N8NConnectionError`, responses go through `_handle_response`. -/
def request (t : TransportOutcome) : Except N8NError Val :=
  match t with
  | .netFail msg => .error (.connectionError ("Failed to connect to n8n: " ++ msg))
  | .response r => handle_response r

/-- The `error` member of a result envelope (`_format_error`). -/
structure ErrorInfo where
  type : String
  message : String
deriving DecidableEq

/-- The result envelope every tool invocation returns
(`BaseTool._format_success` / `_format_error`). -/
structure Envelope where
  success : Bool
  data : Option Val
  error : Option ErrorInfo
deriving DecidableEq

/-- `BaseTool._format_success` (base.py:110-123). -/
def format_success (data : Val) : Envelope :=
  { success := true, data := some data, error := none }

/-- `BaseTool._format_error` (base.py:125-146). -/
def format_error (message : String) (errorType : String) : Envelope :=
  { success := false, data := none, error := some { type := errorType, message := message } }

/-- How one call to a tool's `execute` terminates: a returned value, or
one of the three exception classes `BaseTool.run` distinguishes
(`N8NError`, `ValueError`, anything else). -/
inductive ExecOutcome where
  | ok (result : Val) : ExecOutcome
  | n8nFailure (e : N8NError) : ExecOutcome
  | valueError (msg : String) : ExecOutcome
  | unexpected (msg : String) : ExecOutcome
deriving DecidableEq

/-- The try/except classification of `BaseTool.run` (base.py:59-108):
the single code path that converts an `execute` outcome into an
envelope. -/
def runOutcome : ExecOutcome → Envelope
  | .ok result => format_success result
  | .n8nFailure e => format_error e.message ("n8n_error")
  | .valueError msg => format_error msg ("validation_error")
  | .unexpected msg => format_error ("Unexpected error: " ++ msg) ("internal_error")

/-- A tool as `BaseTool.run` sees it: a name and an `execute` operation
over an argument map. -/
structure Tool where
  name : String
  execute : List (String × Val) → ExecOutcome

/-- `BaseTool.run` (base.py:59-108). -/
def Tool.run (t : Tool) (args : List (String × Val)) : Envelope :=
  runOutcome (t.execute args)

/-- `BaseTool._validate_required_args` (base.py:148-164): `some msg` is
the raised `ValueError` listing every missing argument name. -/
def validate_required_args (args : List (String × Val)) (required : List String) :
    Option String :=
  let missing := required.filter (fun r => (lookupField args r).isNone)
  if missing.isEmpty then none
  else some ("Missing required arguments: " ++ String.intercalate (", ") missing)

/-- Python `round(x, 2)` applied to the exact rational value of the
expression (the source computes on floats; exact ties round half-up
here, which reproduces the program output at every input used in this
development, e.g. `round(49/160*100, 2) = 30.63`). -/
def round2 (q : ℚ) : ℚ := ((Rat.floor (q * 100 + 1 / 2) : ℤ) : ℚ) / 100

/-- `round2` through the standard floor bracket. -/
theorem round2_eq_floor (q : ℚ) : round2 q = ((⌊q * 100 + 1 / 2⌋ : ℤ) : ℚ) / 100 := by
  rw [round2, Rat.floor_def', ← Rat.floor_def]

/-- Evaluation rule for `round2` at a concrete value. -/
theorem round2_eq_of (q : ℚ) (z : ℤ) (h1 : (z : ℚ) ≤ q * 100 + 1 / 2)
    (h2 : q * 100 + 1 / 2 < z + 1) : round2 q = (z : ℚ) / 100 := by
  rw [round2_eq_floor]
  have hz : ⌊q * 100 + 1 / 2⌋ = z := Int.floor_eq_iff.mpr ⟨h1, h2⟩
  rw [hz]

/-- `e.get(key)` with `None` default, for execution objects.  The
statistics code only evaluates it on dict-shaped executions (guarded by
`Val.isObj` below); the non-dict default branch is unreachable there. -/
def execField (e : Val) (key : String) : Val :=
  match e with
  | .obj fields => (lookupField fields key).getD .null
  | _ => .null

/-- Whether a value is a JSON object (Python dict). -/
def Val.isObj : Val → Bool
  | .obj _ => true
  | _ => false

/-- `e.get("finished") and not e.get("stoppedAt")` (n8n_client.py:543). -/
def successShaped (e : Val) : Bool :=
  truthy (execField e ("finished")) && !truthy (execField e ("stoppedAt"))

/-- `e.get("stoppedAt")` is truthy (n8n_client.py:544). -/
def errorShaped (e : Val) : Bool :=
  truthy (execField e ("stoppedAt"))

/-- `not e.get("finished")` (n8n_client.py:545). -/
def waitingShaped (e : Val) : Bool :=
  !truthy (execField e ("finished"))

/-- An execution counted by both the error and the waiting sum:
not finished but with a truthy `stoppedAt`. -/
def overlapShaped (e : Val) : Bool :=
  !truthy (execField e ("finished")) && truthy (execField e ("stoppedAt"))

/-- The statistics dict built by `get_workflow_statistics`
(n8n_client.py:512-556).  `analyzed_executions` is absent (`none`) in
the zero-execution early return, mirroring the source. -/
structure WorkflowStats where
  workflow_id : Val
  total_executions : ℕ
  success_count : ℕ
  error_count : ℕ
  waiting_count : ℕ
  success_rate : ℚ
  error_rate : ℚ
  analyzed_executions : Option Val
deriving DecidableEq

/-- `N8NClient.get_workflow_statistics` (n8n_client.py:512-556), taking
the execution list returned by `get_executions` as input.  `none` models
the `AttributeError` raised when a non-empty list contains a non-dict
element (`e.get` on it). -/
def get_workflow_statistics (workflowId : Val) (limit : Val) (executions : List Val) :
    Option WorkflowStats :=
  let total := executions.length
  if total = 0 then
    some { workflow_id := workflowId, total_executions := 0,
           success_count := 0, error_count := 0, waiting_count := 0,
           success_rate := 0, error_rate := 0, analyzed_executions := none }
  else if executions.all Val.isObj then
    let s := executions.countP successShaped
    let er := executions.countP errorShaped
    let w := executions.countP waitingShaped
    some { workflow_id := workflowId, total_executions := total,
           success_count := s, error_count := er, waiting_count := w,
           success_rate := round2 (((s : ℚ) / (total : ℚ)) * 100),
           error_rate := round2 (((er : ℚ) / (total : ℚ)) * 100),
           analyzed_executions := some limit }
  else none

/-- The dual-shape response normalization duplicated in
`list_workflows` (n8n_client.py:231-237) and `get_executions`
(n8n_client.py:431-437): a dict containing `data` yields that member,
a bare list yields itself, anything else yields the empty list. -/
def normalizeListResponse (response : Val) : Val :=
  match response with
  | .obj fields =>
    match lookupField fields ("data") with
    | some v => v
    | none => .arr []
  | .arr elems => .arr elems
  | _ => .arr []

/-- Python `len(x)`: defined for the sized modelled values (strings,
arrays, objects); `none` models the `TypeError` it raises on anything
else. -/
def pyLen : Val → Option Nat
  | .str s => some s.length
  | .arr elems => some elems.length
  | .obj fields => some fields.length
  | _ => none

/-- The response handling of `list_workflows` after the request
(n8n_client.py:229-240): the dual-shape normalization immediately
followed by the logging f-string `len(workflows)`, which raises
`TypeError` (`none`) when the extracted `data` member is unsized. -/
def list_workflows_response (response : Val) : Option Val :=
  let workflows := normalizeListResponse response
  (pyLen workflows).map (fun _ => workflows)

/-- The response handling of `get_executions` after the request
(n8n_client.py:429-440): the same normalization and `len` logging,
duplicated in the source. -/
def get_executions_response (response : Val) : Option Val :=
  let executions := normalizeListResponse response
  (pyLen executions).map (fun _ => executions)

/-- The error-rate → health-status cascade of
`GetWorkflowHealthTool.execute` (health.py:60-69). -/
def healthStatusOfErrorRate (error_rate : ℚ) : String :=
  if error_rate = 0 then "excellent"
  else if error_rate < 5 then "good"
  else if error_rate < 20 then "fair"
  else "poor"

/-- `GetWorkflowHealthTool._generate_recommendations` (health.py:93-140). -/
def generate_recommendations (error_rate : ℚ) (total_executions : ℕ) (is_active : Bool) :
    List String :=
  let recs : List String :=
    (if error_rate > 20 then
      ["High error rate detected. Review workflow logs and fix failing nodes."]
     else if error_rate > 5 then
      ["Moderate error rate. Consider investigating recent failures."]
     else []) ++
    (if total_executions = 0 then
      (if is_active then
        ["No executions found. Verify workflow triggers are configured correctly."]
       else
        ["Workflow is inactive and has no executions. Activate to start processing."])
     else []) ++
    (if 0 < total_executions ∧ error_rate = 0 then
      ["Excellent! Workflow is running smoothly with no errors."]
     else [])
  if recs.isEmpty then
    ["Workflow health is good. Continue monitoring for any issues."]
  else recs

/-- Python substring test `needle in hay` on character lists. -/
def strContainsChars (needle : List Char) : List Char → Bool
  | [] => needle.isEmpty
  | c :: rest => needle.isPrefixOf (c :: rest) || strContainsChars needle rest

/-- Python `needle in hay` for strings (empty needle is contained). -/
def pyInStr (needle hay : String) : Bool :=
  strContainsChars needle.toList hay.toList

/-- Python `str.lower()`, as the character list it produces (modelled
with ASCII case mapping; the lowering itself is shared by the code- and
spec-side predicates, so the comparison between them does not depend on
the case table). -/
def lowerChars (s : String) : List Char :=
  s.toList.map Char.toLower

/-- `any(query_lower in tag.lower() for tag in tags)`, short-circuiting
like the Python generator; `none` models the exception raised at the
first non-string tag (`tag.lower()`).  (Python oddities such as a
string iterating per character stand outside this model; the search
claims restrict to string tags.) -/
def tagsAnyMatch (queryLower : List Char) : List Val → Option Bool
  | [] => some false
  | .str tag :: rest =>
    if strContainsChars queryLower (lowerChars tag) then some true
    else tagsAnyMatch queryLower rest
  | _ :: _ => none

/-- The per-workflow match predicate of `search_workflows`
(n8n_client.py:500-504): name substring first (short-circuiting the
`or`), then any-tag substring.  `none` models an exception on a
non-dict workflow, non-string name, or non-list tags. -/
def workflow_matches (queryLower : List Char) (w : Val) : Option Bool :=
  match w with
  | .obj fields =>
    match (lookupField fields ("name")).getD (.str "") with
    | .str name =>
      if strContainsChars queryLower (lowerChars name) then some true
      else
        match (lookupField fields ("tags")).getD (.arr []) with
        | .arr tags => tagsAnyMatch queryLower tags
        | _ => none
    | _ => none
  | _ => none

/-- The list-comprehension filter of `search_workflows`
(n8n_client.py:499-504), evaluated element by element in order. -/
def search_filter (queryLower : List Char) : List Val → Option (List Val)
  | [] => some []
  | w :: rest => do
    let b ← workflow_matches queryLower w
    let tail ← search_filter queryLower rest
    pure (if b then w :: tail else tail)

/-- `N8NClient.search_workflows` (n8n_client.py:478-510), applied to the
workflow list returned by `list_workflows`. -/
def search_workflows (query : String) (all_workflows : List Val) : Option (List Val) :=
  search_filter (lowerChars query) all_workflows

/-- Name of a workflow as the search predicate reads it
(`w.get("name", "")`): default empty when absent, `none` when not a
string. -/
def wfName (w : Val) : Option String :=
  match w with
  | .obj fields =>
    match lookupField fields ("name") with
    | none => some ""
    | some (.str s) => some s
    | some _ => none
  | _ => none

/-- Tags of a workflow as the search predicate reads them
(`w.get("tags", [])`): default empty when absent, `none` when not a
list of strings. -/
def wfTags (w : Val) : Option (List String) :=
  match w with
  | .obj fields =>
    match lookupField fields ("tags") with
    | none => some []
    | some (.arr tags) =>
      tags.mapM (fun t =>
        match t with
        | .str s => some s
        | _ => none)
    | some _ => none
  | _ => none

/-- A workflow with a string (or absent) name and string tags — the
shape the spec's data model assigns to workflows. -/
def wellFormedWorkflow (w : Val) : Bool :=
  (wfName w).isSome && (wfTags w).isSome

/-- The spec's wording of the search match: the name contains the query
case-insensitively, or some tag does. -/
def specWorkflowMatches (query : String) (w : Val) : Bool :=
  strContainsChars (lowerChars query) (lowerChars ((wfName w).getD ("")))
  || ((wfTags w).getD []).any
      (fun tag => strContainsChars (lowerChars query) (lowerChars tag))

/-- Python numeric coercion for comparisons (`limit < 1`): ints and
bools (`True == 1`) and floats compare; anything else raises
`TypeError` (`none`). -/
def pyNum : Val → Option ℚ
  | .int n => some (n : ℚ)
  | .bool b => some (if b then 1 else 0)
  | .rat q => some q
  | _ => none

/-- One call a tool issues against the Remote Client, recorded for the
claims about which remote operations run. -/
inductive ClientCall where
  | getWorkflow (workflowId : Val) : ClientCall
  | deleteWorkflow (workflowId : Val) : ClientCall
  | getExecutions (workflowId : Option Val) (limit : Val) (status : Option Val) : ClientCall
deriving DecidableEq

/-- The Remote Client as the tools see it: one response per method call
(the upstream workflow engine is an external collaborator, so its
responses are an oracle). -/
structure ClientOracle where
  getWorkflow : Val → Except N8NError Val
  deleteWorkflow : Val → Except N8NError Val
  getExecutions : Option Val → Val → Option Val → Except N8NError (List Val)

/-- `BaseTool.run` around a traced `execute`: same single
classification path (`runOutcome`), returning the envelope together
with the remote calls the `execute` issued. -/
def runTraced (execute : List (String × Val) → ExecOutcome × List ClientCall)
    (args : List (String × Val)) : Envelope × List ClientCall :=
  (runOutcome (execute args).1, (execute args).2)

/-- `DeleteWorkflowTool.execute` (workflows.py:344-367): required-args
check, then the truthiness gate on `confirm`, then get (for the name)
and delete. -/
def delete_workflow_execute (client : ClientOracle) (args : List (String × Val)) :
    ExecOutcome × List ClientCall :=
  match validate_required_args args [("workflow_id"), ("confirm")] with
  | some msg => (.valueError msg, [])
  | none =>
    if truthy (argsGetD args ("confirm") (.bool false)) = false then
      (.valueError ("Deletion requires explicit confirmation. Set \x27confirm\x27 to true."), [])
    else
      let workflow_id := argsGetD args ("workflow_id") .null
      match client.getWorkflow workflow_id with
      | .error e => (.n8nFailure e, [.getWorkflow workflow_id])
      | .ok w =>
        match dictGetD w ("name") (.str "Unknown") with
        | none => (.unexpected ("AttributeError"), [.getWorkflow workflow_id])
        | some workflow_name =>
          match client.deleteWorkflow workflow_id with
          | .error e =>
            (.n8nFailure e, [.getWorkflow workflow_id, .deleteWorkflow workflow_id])
          | .ok _ =>
            (.ok (.obj
              [("id", workflow_id),
               ("name", workflow_name),
               ("deleted", .bool true),
               ("message", .str ("Successfully deleted workflow \x27" ++ pyStr workflow_name ++ "\x27"))]),
             [.getWorkflow workflow_id, .deleteWorkflow workflow_id])

/-- `GetExecutionsTool._determine_status` (executions.py:176-193). -/
def determine_status (e : Val) : Option String :=
  match e with
  | .obj fields =>
    let stopped_at := (lookupField fields ("stoppedAt")).getD .null
    let finished := (lookupField fields ("finished")).getD (.bool false)
    some (if truthy stopped_at then "error"
          else if truthy finished then "success"
          else "running")
  | _ => none

/-- One entry of the formatted execution list
(executions.py:138-155); `none` models the exception on a non-dict
execution or non-dict `workflowData`. -/
def format_execution (include_data : Bool) (e : Val) : Option Val :=
  match e with
  | .obj fields =>
    match (lookupField fields ("workflowData")).getD (.obj []) with
    | .obj wdFields =>
      let get := fun (k : String) => (lookupField fields k).getD .null
      let base : List (String × Val) :=
        [("id", get ("id")),
         ("workflow_id", get ("workflowId")),
         ("workflow_name", (lookupField wdFields ("name")).getD .null),
         ("mode", get ("mode")),
         ("started_at", get ("startedAt")),
         ("stopped_at", get ("stoppedAt")),
         ("finished", (lookupField fields ("finished")).getD (.bool false)),
         ("status", .str ((determine_status e).getD ("running")))]
      some (.obj (if include_data then
        base ++ [("data", get ("data")), ("execution_data", get ("executionData"))]
      else base))
    | _ => none
  | _ => none

/-- The `status` member of a formatted execution (always a string by
construction of `format_execution`). -/
def formattedStatus (fe : Val) : Option String :=
  match fe with
  | .obj fields =>
    match lookupField fields ("status") with
    | some (.str s) => some s
    | _ => none
  | _ => none

/-- `GetExecutionsTool.execute` (executions.py:113-174): read arguments,
validate `limit` before any remote call, fetch, format, count. -/
def get_executions_execute (client : ClientOracle) (args : List (String × Val)) :
    ExecOutcome × List ClientCall :=
  let workflow_id := argsGetD args ("workflow_id") .null
  let status_filter := argsGetD args ("status") (.str "all")
  let limitVal := argsGetD args ("limit") (.int 20)
  let include_data := truthy (argsGetD args ("include_data") (.bool false))
  match pyNum limitVal with
  | none => (.unexpected ("TypeError: unsupported comparison"), [])
  | some limit =>
    if limit < 1 ∨ limit > 250 then
      (.valueError ("Limit must be between 1 and 250"), [])
    else
      let status_param : Option Val :=
        if status_filter = .str "all" then none else some status_filter
      let wid_param : Option Val :=
        if truthy workflow_id then some workflow_id else none
      let call := ClientCall.getExecutions wid_param limitVal status_param
      match client.getExecutions wid_param limitVal status_param with
      | .error e => (.n8nFailure e, [call])
      | .ok executions =>
        match executions.mapM (format_execution include_data) with
        | none => (.unexpected ("AttributeError"), [call])
        | some formatted =>
          let statusCount := fun (s : String) =>
            formatted.countP (fun fe => decide (formattedStatus fe = some s))
          (.ok (.obj
            [("total_count", .int (formatted.length : Int)),
             ("success_count", .int (statusCount ("success") : Int)),
             ("error_count", .int (statusCount ("error") : Int)),
             ("running_count", .int (statusCount ("running") : Int)),
             ("filters", .obj
               [("workflow_id", workflow_id),
                ("status", status_filter),
                ("limit", limitVal)]),
             ("executions", .arr formatted)]), [call])

/-- `GetWorkflowHealthTool.execute` (health.py:38-91): required args,
`limit` bounds before any remote call, then workflow fetch, the
statistics call (one `get_executions` underneath), the health-status
cascade and the recommendations. -/
def get_workflow_health_execute (client : ClientOracle) (args : List (String × Val)) :
    ExecOutcome × List ClientCall :=
  match validate_required_args args [("workflow_id")] with
  | some msg => (.valueError msg, [])
  | none =>
    let workflow_id := argsGetD args ("workflow_id") .null
    let limitVal := argsGetD args ("limit") (.int 100)
    match pyNum limitVal with
    | none => (.unexpected ("TypeError: unsupported comparison"), [])
    | some limit =>
      if limit < 10 ∨ limit > 1000 then
        (.valueError ("Limit must be between 10 and 1000"), [])
      else
        match client.getWorkflow workflow_id with
        | .error e => (.n8nFailure e, [.getWorkflow workflow_id])
        | .ok w =>
          match dictGetD w ("name") (.str "Unknown"), dictGetD w ("active") (.bool false) with
          | some workflow_name, some is_active =>
            let wid_param := if truthy workflow_id then some workflow_id else none
            let call := ClientCall.getExecutions wid_param limitVal none
            match client.getExecutions wid_param limitVal none with
            | .error e => (.n8nFailure e, [.getWorkflow workflow_id, call])
            | .ok executions =>
              match get_workflow_statistics workflow_id limitVal executions with
              | none => (.unexpected ("AttributeError"), [.getWorkflow workflow_id, call])
              | some stats =>
                let error_rate := stats.error_rate
                let health_status := healthStatusOfErrorRate error_rate
                (.ok (.obj
                  [("workflow_id", workflow_id),
                   ("workflow_name", workflow_name),
                   ("is_active", is_active),
                   ("health_status", .str health_status),
                   ("statistics", .obj
                     [("total_executions", .int (stats.total_executions : Int)),
                      ("success_count", .int (stats.success_count : Int)),
                      ("error_count", .int (stats.error_count : Int)),
                      ("waiting_count", .int (stats.waiting_count : Int)),
                      ("success_rate", .rat stats.success_rate),
                      ("error_rate", .rat stats.error_rate),
                      ("analyzed_executions", (stats.analyzed_executions).getD limitVal)]),
                   ("recommendations", .arr
                     ((generate_recommendations error_rate stats.total_executions
                        (truthy is_active)).map (fun s => Val.str s)))]),
                 [.getWorkflow workflow_id, call])
          | _, _ => (.unexpected ("AttributeError"), [.getWorkflow workflow_id])

/-- A stored workflow definition: the JSON object the upstream holds. -/
abbrev WorkflowObj := List (String × Val)

/-- The upstream workflow engine's store, modelled per spec §1/§6 as an
external key-value system: it stores exactly what a put sends and a get
returns the stored definition. -/
abbrev UpstreamStore := List (String × WorkflowObj)

/-- Lookup of a stored workflow by id. -/
def storeLookup : UpstreamStore → String → Option WorkflowObj
  | [], _ => none
  | (k, w) :: rest, workflowId =>
    if k = workflowId then some w else storeLookup rest workflowId

/-- Replace the stored definition of an existing id. -/
def storeUpdate : UpstreamStore → String → WorkflowObj → UpstreamStore
  | [], _, _ => []
  | (k, w) :: rest, workflowId, body =>
    if k = workflowId then (k, body) :: rest
    else (k, w) :: storeUpdate rest workflowId body

/-- Python dict assignment `workflow[key] = v`: replace in place if the
key exists, else append. -/
def setField : WorkflowObj → String → Val → WorkflowObj
  | [], key, v => [(key, v)]
  | (k, x) :: rest, key, v =>
    if k = key then (key, v) :: rest
    else (k, x) :: setField rest key v

/-- One raw HTTP operation of the activate/deactivate pipelines. -/
inductive RemoteCall where
  | get (workflowId : String) : RemoteCall
  | put (workflowId : String) (body : WorkflowObj) : RemoteCall
deriving DecidableEq

/-- `N8NClient.get_workflow` (n8n_client.py:242-257) against the store:
the stored definition, or 404. -/
def client_get_workflow (store : UpstreamStore) (workflowId : String) :
    Except N8NError WorkflowObj :=
  match storeLookup store workflowId with
  | some w => .ok w
  | none => .error (.notFoundError ("Resource not found: workflow not found"))

/-- `N8NClient.update_workflow` (n8n_client.py:276-301) against the
store: the put body replaces the stored definition and is echoed back,
or 404 for a missing id. -/
def client_update_workflow (store : UpstreamStore) (workflowId : String)
    (body : WorkflowObj) : Except N8NError (UpstreamStore × WorkflowObj) :=
  match storeLookup store workflowId with
  | some _ => .ok (storeUpdate store workflowId body, body)
  | none => .error (.notFoundError ("Resource not found: workflow not found"))

/-- `N8NClient.activate_workflow` (n8n_client.py:320-341):
get, set `active = True` on the fetched definition, put it back.
The result pairs the client outcome with the raw remote calls issued. -/
def activate_workflow (store : UpstreamStore) (workflowId : String) :
    Except N8NError (UpstreamStore × WorkflowObj) × List RemoteCall :=
  match client_get_workflow store workflowId with
  | .error e => (.error e, [.get workflowId])
  | .ok w =>
    let w' := setField w ("active") (.bool true)
    match client_update_workflow store workflowId w' with
    | .error e => (.error e, [.get workflowId, .put workflowId w'])
    | .ok res => (.ok res, [.get workflowId, .put workflowId w'])

/-- `N8NClient.deactivate_workflow` (n8n_client.py:343-364):
get, set `active = False`, put. -/
def deactivate_workflow (store : UpstreamStore) (workflowId : String) :
    Except N8NError (UpstreamStore × WorkflowObj) × List RemoteCall :=
  match client_get_workflow store workflowId with
  | .error e => (.error e, [.get workflowId])
  | .ok w =>
    let w' := setField w ("active") (.bool false)
    match client_update_workflow store workflowId w' with
    | .error e => (.error e, [.get workflowId, .put workflowId w'])
    | .ok res => (.ok res, [.get workflowId, .put workflowId w'])

/-! ## Claim theorems -/

/-- Claim C1: for every tool and argument map, `run` returns a result
envelope and never propagates a raw failure: success yields
`{success: true, data: result, error: null}`; a signaled `ValueError`
yields kind `validation_error`; an `N8NError` yields kind `n8n_error`;
any other failure yields kind `internal_error`; and exactly one of
`data`/`error` is populated, gated by `success`. -/
theorem run_envelope_classification :
    ∀ (t : Tool) (args : List (String × Val)),
      ((t.run args).success = true →
        (t.run args).data.isSome ∧ (t.run args).error = none) ∧
      ((t.run args).success = false →
        (t.run args).data = none ∧ (t.run args).error.isSome) ∧
      (∀ v, t.execute args = .ok v →
        t.run args = { success := true, data := some v, error := none }) ∧
      (∀ e, t.execute args = .n8nFailure e →
        (t.run args).success = false ∧
          (t.run args).error = some ⟨"n8n_error", e.message⟩) ∧
      (∀ m, t.execute args = .valueError m →
        (t.run args).success = false ∧
          (t.run args).error = some ⟨"validation_error", m⟩) ∧
      (∀ m, t.execute args = .unexpected m →
        (t.run args).success = false ∧
          (t.run args).error = some ⟨"internal_error", "Unexpected error: " ++ m⟩) := by
  intro t args
  cases h : t.execute args <;>
    simp [Tool.run, runOutcome, format_success, format_error, h]

/-- A tool whose `execute` returns a constant value, used to witness the
envelope classification at a concrete input. -/
def constTool : Tool :=
  { name := "const", execute := fun _ => .ok (.bool true) }

/-- Witness for C1 at a concrete tool and argument map. -/
theorem run_envelope_classification_witness :
    constTool.run [] = { success := true, data := some (.bool true), error := none } :=
  (run_envelope_classification constTool []).2.2.1 (.bool true) rfl

/-- Claim C4: `get_workflow_health` derives `health_status` from
`error_rate` as `excellent` at 0, `good` strictly below 5, `fair`
strictly below 20, else `poor`; in particular exactly 5 maps to `fair`,
exactly 20 to `poor`, exactly 0 to `excellent`. -/
theorem health_status_boundaries :
    healthStatusOfErrorRate 0 = "excellent" ∧
    healthStatusOfErrorRate 5 = "fair" ∧
    healthStatusOfErrorRate 20 = "poor" ∧
    (∀ r : ℚ, r = 0 → healthStatusOfErrorRate r = "excellent") ∧
    (∀ r : ℚ, r ≠ 0 → r < 5 → healthStatusOfErrorRate r = "good") ∧
    (∀ r : ℚ, r ≠ 0 → ¬r < 5 → r < 20 → healthStatusOfErrorRate r = "fair") ∧
    (∀ r : ℚ, ¬r < 20 → healthStatusOfErrorRate r = "poor") := by
  refine ⟨by norm_num [healthStatusOfErrorRate], by norm_num [healthStatusOfErrorRate],
    by norm_num [healthStatusOfErrorRate], ?_, ?_, ?_, ?_⟩
  · intro r h1
    simp [healthStatusOfErrorRate, h1]
  · intro r h1 h2
    simp [healthStatusOfErrorRate, h1, h2]
  · intro r h1 h2 h3
    simp [healthStatusOfErrorRate, h1, h2, h3]
  · intro r h1
    have h2 : r ≠ 0 := by intro h; rw [h] at h1; exact h1 (by norm_num)
    have h3 : ¬r < 5 := by intro h; exact h1 (lt_trans h (by norm_num))
    simp [healthStatusOfErrorRate, h2, h3, h1]

/-- Witness for C4: a rate of 3 is classified `good`. -/
theorem health_status_boundaries_witness :
    healthStatusOfErrorRate 3 = "good" :=
  health_status_boundaries.2.2.2.2.1 3 (by norm_num) (by norm_num)

/-- Claim C6 counterexample: two unrecognized response shapes that the
operations do not normalize to an empty sequence.  With
`{"data": "abc"}` the string is passed through unchanged (its `len`
succeeds at the logging line); with `{"data": 5}` the operation fails
with a `TypeError` at `len(workflows)` instead of returning — in both
cases for `list_workflows` and `get_executions` alike, refuting "every
unrecognized response shape normalizes to an empty sequence rather than
failing". -/
theorem list_response_unrecognized_counterexample :
    list_workflows_response (.obj [("data", .str "abc")]) = some (.str "abc") ∧
    Val.str "abc" ≠ .arr [] ∧
    list_workflows_response (.obj [("data", .int 5)]) = none ∧
    get_executions_response (.obj [("data", .str "abc")]) = some (.str "abc") ∧
    get_executions_response (.obj [("data", .int 5)]) = none := by
  exact ⟨rfl, by decide, rfl, rfl, rfl⟩

/-- Claim C6 (amended): for both list operations, a bare array and an
object carrying a `data` array normalize to the same sequence, and an
object without a `data` member as well as any non-array non-object
normalize to an empty sequence.  But an object whose `data` member is
any other sized value is returned unchanged, and one whose `data`
member is unsized fails with a `TypeError` at the logging line — not an
empty sequence in either case. -/
theorem list_response_dual_shape_amended :
    (∀ elems : List Val,
      list_workflows_response (.arr elems) = some (.arr elems) ∧
      get_executions_response (.arr elems) = some (.arr elems)) ∧
    (∀ fields (elems : List Val), lookupField fields ("data") = some (.arr elems) →
      list_workflows_response (.obj fields) = some (.arr elems) ∧
      get_executions_response (.obj fields) = some (.arr elems)) ∧
    (∀ fields, lookupField fields ("data") = none →
      list_workflows_response (.obj fields) = some (.arr []) ∧
      get_executions_response (.obj fields) = some (.arr [])) ∧
    (∀ v : Val, (∀ elems, v ≠ .arr elems) → (∀ fields, v ≠ .obj fields) →
      list_workflows_response v = some (.arr []) ∧
      get_executions_response v = some (.arr [])) ∧
    (∀ fields (v : Val), lookupField fields ("data") = some v →
      list_workflows_response (.obj fields) = (pyLen v).map (fun _ => v) ∧
      get_executions_response (.obj fields) = (pyLen v).map (fun _ => v)) := by
  refine ⟨fun elems => ⟨rfl, rfl⟩, ?_, ?_, ?_, ?_⟩
  · intro fields elems h
    constructor <;>
      simp [list_workflows_response, get_executions_response, normalizeListResponse, h, pyLen]
  · intro fields h
    constructor <;>
      simp [list_workflows_response, get_executions_response, normalizeListResponse, h, pyLen]
  · intro v h1 h2
    cases v
    case arr elems => exact absurd rfl (h1 elems)
    case obj fields => exact absurd rfl (h2 fields)
    all_goals exact ⟨rfl, rfl⟩
  · intro fields v h
    constructor <;>
      simp [list_workflows_response, get_executions_response, normalizeListResponse, h]

/-- Witness for the amended C6: the recognized shapes at a concrete
element list, a concrete unrecognized unsized shape, and the concrete
unsized `data` member failing. -/
theorem list_response_dual_shape_amended_witness :
    list_workflows_response (.obj [("data", .arr [.int 1, .int 2])]) =
      some (.arr [.int 1, .int 2]) ∧
    get_executions_response (.arr [.int 1, .int 2]) = some (.arr [.int 1, .int 2]) ∧
    list_workflows_response (.int 7) = some (.arr []) ∧
    get_executions_response (.obj [("data", .int 5)]) = none := by
  refine ⟨(list_response_dual_shape_amended.2.1 [("data", .arr [.int 1, .int 2])]
      [.int 1, .int 2] rfl).1,
    (list_response_dual_shape_amended.1 [.int 1, .int 2]).2,
    (list_response_dual_shape_amended.2.2.2.1 _
      (by intro elems h; cases h) (by intro fields h; cases h)).1,
    (list_response_dual_shape_amended.2.2.2.2 [("data", .int 5)] (.int 5) rfl).2⟩

/-- Claim C3: the Remote Client's failure classification — network
failures raise `ConnectionError`; 401/403 raise `AuthError` with the
upstream message (concretely, a 401 with body `{"message":
"Unauthorized"}` yields an `AuthError` containing "Unauthorized", which
a tool's envelope reports as kind `n8n_error`); 404 raises
`NotFoundError`; 400 raises `ValidationError`; any other non-2xx raises
the generic error carrying the upstream message if present, else the
raw status text; and a 204 or empty body is success with an empty
result. -/
theorem remote_error_classification :
    (∀ m, request (.netFail m) =
      .error (.connectionError ("Failed to connect to n8n: " ++ m))) ∧
    (∀ r : HttpResponse, r.status = 401 ∨ r.status = 403 →
      handle_response r =
        .error (.authError ("Authentication failed: " ++ upstreamMessage r))) ∧
    (∀ r : HttpResponse, r.status = 404 →
      handle_response r =
        .error (.notFoundError ("Resource not found: " ++ upstreamMessage r))) ∧
    (∀ r : HttpResponse, r.status = 400 →
      handle_response r =
        .error (.validationError ("Validation error: " ++ upstreamMessage r))) ∧
    (∀ r : HttpResponse, ¬(200 ≤ r.status ∧ r.status < 300) →
      r.status ≠ 400 → r.status ≠ 401 → r.status ≠ 403 → r.status ≠ 404 →
      handle_response r =
        .error (.apiError ("n8n API error: " ++ upstreamMessage r))) ∧
    (∀ (r : HttpResponse) fields (v : Val), r.body = some (.obj fields) →
      lookupField fields ("message") = some v → upstreamMessage r = pyStr v) ∧
    (∀ r : HttpResponse, r.body = none → upstreamMessage r = r.statusText) ∧
    (handle_response
        { status := 401,
          body := some (.obj [("message", .str "Unauthorized")]),
          statusText := "Client error 401" } =
      .error (.authError ("Authentication failed: Unauthorized")) ∧
      pyInStr ("Unauthorized") ("Authentication failed: Unauthorized") = true) ∧
    (∀ (t : Tool) args e, t.execute args = .n8nFailure e →
      (t.run args).error = some ⟨"n8n_error", e.message⟩) ∧
    (∀ r : HttpResponse, 200 ≤ r.status → r.status < 300 →
      r.status = 204 ∨ r.body = none → handle_response r = .ok (.obj [])) := by
  refine ⟨fun m => rfl, ?_, ?_, ?_, ?_, ?_, ?_, ⟨rfl, by decide⟩, ?_, ?_⟩
  · intro r h
    have hne : ¬(200 ≤ r.status ∧ r.status < 300) := by rcases h with h | h <;> omega
    simp [handle_response, hne, h]
  · intro r h
    have hne : ¬(200 ≤ r.status ∧ r.status < 300) := by omega
    have h2 : ¬(r.status = 401 ∨ r.status = 403) := by omega
    simp [handle_response, hne, h, h2]
  · intro r h
    have hne : ¬(200 ≤ r.status ∧ r.status < 300) := by omega
    have h2 : ¬(r.status = 401 ∨ r.status = 403) := by omega
    have h3 : r.status ≠ 404 := by omega
    simp [handle_response, hne, h, h2, h3]
  · intro r hne h400 h401 h403 h404
    have h2 : ¬(r.status = 401 ∨ r.status = 403) := by
      rintro (h | h) <;> simp_all
    simp [handle_response, hne, h2, h404, h400]
  · intro r fields v hb hm
    simp [upstreamMessage, hb, hm]
  · intro r hb
    simp [upstreamMessage, hb]
  · intro t args e h
    simp [Tool.run, runOutcome, format_error, h]
  · intro r h1 h2 h3
    simp [handle_response, h1, h2, h3]

/-- Witness for C3: the 404 classification at a concrete response and
the network classification at a concrete failure. -/
theorem remote_error_classification_witness :
    handle_response { status := 404, body := none, statusText := "not found" } =
      .error (.notFoundError ("Resource not found: not found")) ∧
    request (.netFail ("timed out")) =
      .error (.connectionError ("Failed to connect to n8n: timed out")) := by
  refine ⟨?_, remote_error_classification.1 ("timed out")⟩
  have h := remote_error_classification.2.2.1
    { status := 404, body := none, statusText := "not found" } rfl
  simpa [upstreamMessage] using h

/-- A Remote Client oracle whose three methods all succeed trivially,
used to instantiate tool-level claims at concrete inputs. -/
def trivialOracle : ClientOracle :=
  { getWorkflow := fun _ => .ok (.obj []),
    deleteWorkflow := fun _ => .ok (.bool true),
    getExecutions := fun _ _ _ => .ok [] }

/-- Claim C2 counterexample: with `confirm = 1` — a value different
from `true` — the delete tool does not fail with `validation_error`; it
succeeds and issues the delete call, because the code gates on Python
truthiness, not on equality with `true`. -/
theorem delete_confirm_counterexample :
    argsGetD [("workflow_id", .str "wf-1"), ("confirm", .int 1)] ("confirm") (.bool false)
        ≠ .bool true ∧
    (runTraced (delete_workflow_execute trivialOracle)
        [("workflow_id", .str "wf-1"), ("confirm", .int 1)]).1.success = true ∧
    ClientCall.deleteWorkflow (.str "wf-1") ∈
      (runTraced (delete_workflow_execute trivialOracle)
        [("workflow_id", .str "wf-1"), ("confirm", .int 1)]).2 := by
  refine ⟨by decide, rfl, by decide⟩

/-- Claim C2 (amended): for every argument map in which `confirm` is
absent or falsy (`false`, `null`, `0`, empty string/array/object), the
delete tool's run returns `validation_error` and issues no remote call;
a truthy non-`true` value (such as `1`) instead proceeds with
deletion. -/
theorem delete_confirm_falsy_amended :
    ∀ (client : ClientOracle) (args : List (String × Val)),
      truthy (argsGetD args ("confirm") (.bool false)) = false →
      ∃ m, runTraced (delete_workflow_execute client) args =
        (format_error m ("validation_error"), []) := by
  intro client args h
  cases hv : validate_required_args args [("workflow_id"), ("confirm")] with
  | some msg =>
    exact ⟨msg, by simp [runTraced, delete_workflow_execute, hv, runOutcome]⟩
  | none =>
    refine ⟨"Deletion requires explicit confirmation. Set \x27confirm\x27 to true.", ?_⟩
    simp [runTraced, delete_workflow_execute, hv, h, runOutcome]

/-- Witness for the amended C2: `confirm = false` at a concrete map. -/
theorem delete_confirm_falsy_amended_witness :
    ∃ m, runTraced (delete_workflow_execute trivialOracle)
        [("workflow_id", .str "wf-1"), ("confirm", .bool false)] =
      (format_error m ("validation_error"), []) :=
  delete_confirm_falsy_amended trivialOracle
    [("workflow_id", .str "wf-1"), ("confirm", .bool false)] (by decide)

/-- Claim C8: an integer `limit` outside [1,250] makes the
`get_executions` tool fail with `validation_error` with no remote call
issued; analogously outside [10,1000] for `get_workflow_health`. -/
theorem limit_validation_before_remote_calls :
    ∀ (client : ClientOracle) (args : List (String × Val)) (n : Int),
      (lookupField args ("limit") = some (.int n) → n < 1 ∨ n > 250 →
        runTraced (get_executions_execute client) args =
          (format_error ("Limit must be between 1 and 250") ("validation_error"), [])) ∧
      (lookupField args ("limit") = some (.int n) → n < 10 ∨ n > 1000 →
        ∃ m, runTraced (get_workflow_health_execute client) args =
          (format_error m ("validation_error"), [])) := by
  intro client args n
  constructor
  · intro hl hrange
    have hget : argsGetD args ("limit") (.int 20) = .int n := by simp [argsGetD, hl]
    have hcond : ((n : ℚ) < 1 ∨ (n : ℚ) > 250) := by
      rcases hrange with h | h
      · exact Or.inl (by exact_mod_cast h)
      · exact Or.inr (by exact_mod_cast h)
    simp [runTraced, get_executions_execute, hget, pyNum, hcond, runOutcome]
  · intro hl hrange
    cases hv : validate_required_args args [("workflow_id")] with
    | some msg =>
      exact ⟨msg, by simp [runTraced, get_workflow_health_execute, hv, runOutcome]⟩
    | none =>
      refine ⟨"Limit must be between 10 and 1000", ?_⟩
      have hget : argsGetD args ("limit") (.int 100) = .int n := by simp [argsGetD, hl]
      have hcond : ((n : ℚ) < 10 ∨ (n : ℚ) > 1000) := by
        rcases hrange with h | h
        · exact Or.inl (by exact_mod_cast h)
        · exact Or.inr (by exact_mod_cast h)
      simp [runTraced, get_workflow_health_execute, hv, hget, pyNum, hcond, runOutcome]

/-- Witness for C8: `limit = 0` for executions, `limit = 5000` for
health, both at concrete argument maps. -/
theorem limit_validation_before_remote_calls_witness :
    runTraced (get_executions_execute trivialOracle) [("limit", .int 0)] =
      (format_error ("Limit must be between 1 and 250") ("validation_error"), []) ∧
    ∃ m, runTraced (get_workflow_health_execute trivialOracle)
        [("workflow_id", .str "w"), ("limit", .int 5000)] =
      (format_error m ("validation_error"), []) :=
  ⟨(limit_validation_before_remote_calls trivialOracle [("limit", .int 0)] 0).1
      rfl (by norm_num),
   (limit_validation_before_remote_calls trivialOracle
      [("workflow_id", .str "w"), ("limit", .int 5000)] 5000).2 rfl (by norm_num)⟩

/-- Claim C5: with S success-shaped, E error-shaped, W waiting-shaped
executions and S+E+W = N, the statistics are the three counts with
rates `round(100*S/N, 2)` and `round(100*E/N, 2)`; N = 0 yields both
rates 0.0 (and the `analyzed_executions` member absent) without
failing. -/
theorem statistics_counts_and_rates :
    ∀ (wid limit : Val) (executions : List Val) (S E W : ℕ),
      (∀ e ∈ executions, Val.isObj e = true) →
      S = executions.countP successShaped →
      E = executions.countP errorShaped →
      W = executions.countP waitingShaped →
      S + E + W = executions.length →
      get_workflow_statistics wid limit executions =
        some { workflow_id := wid,
               total_executions := executions.length,
               success_count := S, error_count := E, waiting_count := W,
               success_rate := round2 (100 * (S : ℚ) / (executions.length : ℚ)),
               error_rate := round2 (100 * (E : ℚ) / (executions.length : ℚ)),
               analyzed_executions :=
                 if executions.length = 0 then none else some limit } := by
  intro wid limit executions S E W hobj hS hE hW _
  by_cases h0 : executions.length = 0
  · have hnil : executions = [] := List.length_eq_zero.mp h0
    subst hnil
    simp only [List.countP_nil] at hS hE hW
    subst hS; subst hE; subst hW
    simp [get_workflow_statistics]
    have h0 : round2 0 = 0 := by
      rw [round2_eq_of 0 0 (by norm_num) (by norm_num)]; norm_num
    exact h0.symm
  · have hall : executions.all Val.isObj = true := by
      rw [List.all_eq_true]; exact hobj
    have hmulS : ((executions.countP successShaped : ℚ) / (executions.length : ℚ)) * 100 =
        100 * (executions.countP successShaped : ℚ) / (executions.length : ℚ) := by ring
    have hmulE : ((executions.countP errorShaped : ℚ) / (executions.length : ℚ)) * 100 =
        100 * (executions.countP errorShaped : ℚ) / (executions.length : ℚ) := by ring
    subst hS; subst hE; subst hW
    simp [get_workflow_statistics, h0, hall, hmulS, hmulE]

/-- A concrete execution list for the C5 witness: one success-shaped,
two waiting-shaped, one error-shaped execution. -/
def c5Executions : List Val :=
  [.obj [("finished", .bool true)],
   .obj [("finished", .bool false)],
   .obj [("finished", .bool false)],
   .obj [("finished", .bool true), ("stoppedAt", .str "2024-01-01T00:00:00Z")]]

/-- Witness for C5 at four concrete executions (S = 1, E = 1, W = 2,
N = 4; both rates are `round(25.0, 2) = 25.0`). -/
theorem statistics_counts_and_rates_witness :
    get_workflow_statistics (.str "w") (.int 100) c5Executions =
      some { workflow_id := .str "w", total_executions := 4,
             success_count := 1, error_count := 1, waiting_count := 2,
             success_rate := 25, error_rate := 25,
             analyzed_executions := some (.int 100) } := by
  have h := statistics_counts_and_rates (.str "w") (.int 100) c5Executions 1 1 2
    (by decide) (by decide) (by decide) (by decide) (by decide)
  rw [h]
  have hlen : c5Executions.length = 4 := rfl
  rw [hlen]
  have hq : (100 : ℚ) * ((1 : ℕ) : ℚ) / ((4 : ℕ) : ℚ) = 25 := by norm_num
  have h25 : round2 25 = 25 := by
    rw [round2_eq_of 25 2500 (by norm_num) (by norm_num)]; norm_num
  rw [hq, h25]
  norm_num

/-- The concrete execution list for C10: 49 success-shaped executions
followed by 111 executions that are unfinished but stopped (counted by
both the error and the waiting sum). -/
def c10Executions : List Val :=
  List.replicate 49 (.obj [("finished", .bool true)]) ++
  List.replicate 111
    (.obj [("finished", .bool false), ("stoppedAt", .str "2024-01-01T00:00:00Z")])

set_option maxRecDepth 8192 in
/-- Claim C10: the three status shapes do not partition the executions:
for every list, success + error + waiting counts equal the length plus
the number of executions that are both unfinished and stopped (each
counted under error and waiting alike); concretely, 49 success-shaped
plus 111 unfinished-but-stopped executions give counts summing to 271 >
160 and rates 30.63 + 69.38 = 100.01 > 100. -/
theorem statistics_shapes_not_a_partition :
    (∀ executions : List Val,
      executions.countP successShaped + executions.countP errorShaped +
        executions.countP waitingShaped =
      executions.length + executions.countP overlapShaped) ∧
    (get_workflow_statistics (.str "wf") (.int 160) c10Executions =
      some { workflow_id := .str "wf", total_executions := 160,
             success_count := 49, error_count := 111, waiting_count := 111,
             success_rate := 3063 / 100, error_rate := 6938 / 100,
             analyzed_executions := some (.int 160) } ∧
     49 + 111 + 111 > 160 ∧ (3063 : ℚ) / 100 + 6938 / 100 > 100) := by
  constructor
  · intro executions
    induction executions with
    | nil => rfl
    | cons e rest ih =>
      simp only [List.countP_cons, List.length_cons]
      cases hf : truthy (execField e ("finished")) <;>
        cases hs : truthy (execField e ("stoppedAt")) <;>
          simp [successShaped, errorShaped, waitingShaped, overlapShaped, hf, hs] <;>
            omega
  · refine ⟨?_, by norm_num, by norm_num⟩
    have hlen : c10Executions.length = 160 := by decide
    have hall : c10Executions.all Val.isObj = true := by decide
    have hS : c10Executions.countP successShaped = 49 := by decide
    have hE : c10Executions.countP errorShaped = 111 := by decide
    have hW : c10Executions.countP waitingShaped = 111 := by decide
    have hrS : round2 ((49 : ℚ) / 160 * 100) = 3063 / 100 := by
      have hq : (49 : ℚ) / 160 * 100 = 245 / 8 := by norm_num
      rw [hq, round2_eq_of (245 / 8) 3063 (by norm_num) (by norm_num)]
      norm_num
    have hrE : round2 ((111 : ℚ) / 160 * 100) = 6938 / 100 := by
      have hq : (111 : ℚ) / 160 * 100 = 555 / 8 := by norm_num
      rw [hq, round2_eq_of (555 / 8) 6938 (by norm_num) (by norm_num)]
      norm_num
    simp [get_workflow_statistics, hlen, hall, hS, hE, hW]
    exact ⟨hrS, hrE⟩

/-- On a tag list that decodes to strings, the short-circuiting code
match agrees with `any` over the decoded tags. -/
theorem tagsAnyMatch_eq (ql : List Char) :
    ∀ (tagVals : List Val) (tags : List String),
      tagVals.mapM (fun t =>
        match t with
        | .str s => some s
        | _ => none) = some tags →
      tagsAnyMatch ql tagVals =
        some (tags.any fun t => strContainsChars ql (lowerChars t)) := by
  intro tagVals
  induction tagVals with
  | nil =>
    intro tags h
    simp only [List.mapM_nil, Option.pure_def, Option.some.injEq] at h
    subst h
    rfl
  | cons t rest ih =>
    intro tags h
    rw [List.mapM_cons] at h
    cases t with
    | str s =>
      simp only [Option.pure_def, Option.bind_eq_bind, Option.some_bind] at h
      cases hrest : rest.mapM (fun t =>
          match t with
          | .str s => some s
          | _ => none) with
      | none => rw [hrest] at h; simp at h
      | some ss =>
        rw [hrest] at h
        simp only [Option.some_bind, Option.some.injEq] at h
        subst h
        simp only [tagsAnyMatch, List.any_cons]
        cases hp : strContainsChars ql (lowerChars s) with
        | true => simp [hp]
        | false => simpa [hp] using ih ss hrest
    | null => simp at h
    | bool b => simp at h
    | int n => simp at h
    | rat q => simp at h
    | arr l => simp at h
    | obj l => simp at h

/-- On a well-formed workflow, the code's search predicate agrees with
the spec's case-insensitive name-or-tag containment predicate. -/
theorem workflow_matches_eq (q : String) (w : Val)
    (hwf : wellFormedWorkflow w = true) :
    workflow_matches (lowerChars q) w = some (specWorkflowMatches q w) := by
  rw [wellFormedWorkflow, Bool.and_eq_true] at hwf
  obtain ⟨hn, ht⟩ := hwf
  cases w with
  | obj fields =>
    obtain ⟨s, hs1, hs2⟩ : ∃ s, (lookupField fields ("name")).getD (.str "") = .str s ∧
        wfName (.obj fields) = some s := by
      cases hname : lookupField fields ("name") with
      | none => exact ⟨"", by simp [hname], by simp [wfName, hname]⟩
      | some nv =>
        cases nv with
        | str s => exact ⟨s, by simp [hname], by simp [wfName, hname]⟩
        | null => simp [wfName, hname] at hn
        | bool b => simp [wfName, hname] at hn
        | int n => simp [wfName, hname] at hn
        | rat q2 => simp [wfName, hname] at hn
        | arr l => simp [wfName, hname] at hn
        | obj l => simp [wfName, hname] at hn
    simp only [workflow_matches, hs1, specWorkflowMatches, hs2, Option.getD_some]
    cases hp : strContainsChars (lowerChars q) (lowerChars s) with
    | true => simp [hp]
    | false =>
      simp only [hp, Bool.false_or]
      cases htags : lookupField fields ("tags") with
      | none =>
        simp [wfTags, htags, tagsAnyMatch]
      | some tv =>
        cases tv with
        | arr tagVals =>
          have htags2 : ∃ tags, tagVals.mapM (fun t =>
              match t with
              | .str s => some s
              | _ => none) = some tags := by
            rw [wfTags] at ht
            simp only [htags] at ht
            exact Option.isSome_iff_exists.mp ht
          obtain ⟨tags, htags3⟩ := htags2
          have hw : wfTags (.obj fields) = some tags := by
            rw [wfTags]
            simp only [htags]
            exact htags3
          simp only [Option.getD_some, hw]
          exact tagsAnyMatch_eq (lowerChars q) tagVals tags htags3
        | null => simp [wfTags, htags] at ht
        | bool b => simp [wfTags, htags] at ht
        | int n => simp [wfTags, htags] at ht
        | rat q2 => simp [wfTags, htags] at ht
        | str s2 => simp [wfTags, htags] at ht
        | obj l => simp [wfTags, htags] at ht
  | null => simp [wfName] at hn
  | bool b => simp [wfName] at hn
  | int n => simp [wfName] at hn
  | rat q2 => simp [wfName] at hn
  | str s => simp [wfName] at hn
  | arr l => simp [wfName] at hn

/-- The search filter over a well-formed list equals the spec filter. -/
theorem search_filter_eq (q : String) :
    ∀ ws : List Val, (∀ w ∈ ws, wellFormedWorkflow w = true) →
      search_filter (lowerChars q) ws = some (ws.filter (specWorkflowMatches q)) := by
  intro ws
  induction ws with
  | nil => intro _; rfl
  | cons w rest ih =>
    intro h
    have hw := workflow_matches_eq q w (h w (by simp))
    have ihr := ih (fun x hx => h x (by simp [hx]))
    simp only [search_filter, hw, ihr, Option.bind_eq_bind, Option.some_bind,
      Option.pure_def, List.filter_cons]

/-- Claim C7: for every query string and workflow list of well-formed
workflows, `search_workflows` returns exactly the subset whose name or
some tag contains the query case-insensitively, preserving the list
order (the result is the order-preserving filter, hence a sublist). -/
theorem search_workflows_is_ci_filter :
    ∀ (query : String) (all_workflows : List Val),
      (∀ w ∈ all_workflows, wellFormedWorkflow w = true) →
      search_workflows query all_workflows =
        some (all_workflows.filter (specWorkflowMatches query)) ∧
      (all_workflows.filter (specWorkflowMatches query)).Sublist all_workflows := by
  intro query all_workflows h
  exact ⟨search_filter_eq query all_workflows h, List.filter_sublist all_workflows⟩

/-- A concrete workflow list for the C7 witness: the first matches by
name, the second by tag, the third not at all. -/
def c7Workflows : List Val :=
  [.obj [("name", .str "Email Alert")],
   .obj [("name", .str "Other"), ("tags", .arr [.str "EMAIL-ops"])],
   .obj [("name", .str "Nope"), ("tags", .arr [.str "sms"])]]

/-- Witness for C7: the query "mail" selects exactly the first two
workflows, in order. -/
theorem search_workflows_is_ci_filter_witness :
    search_workflows ("mail") c7Workflows =
      some [.obj [("name", .str "Email Alert")],
            .obj [("name", .str "Other"), ("tags", .arr [.str "EMAIL-ops"])]] := by
  have h := (search_workflows_is_ci_filter ("mail") c7Workflows (by decide)).1
  rw [h]
  decide

/-- Setting a field and reading it back yields the new value. -/
theorem lookupField_setField_self :
    ∀ (w : WorkflowObj) (key : String) (v : Val),
      lookupField (setField w key v) key = some v := by
  intro w key v
  induction w with
  | nil => simp [setField, lookupField]
  | cons kv rest ih =>
    obtain ⟨k, x⟩ := kv
    by_cases hk : k = key
    · simp [setField, hk, lookupField]
    · simp [setField, hk, lookupField, ih]

/-- Setting a field leaves every other field unchanged. -/
theorem lookupField_setField_ne :
    ∀ (w : WorkflowObj) (key other : String) (v : Val), other ≠ key →
      lookupField (setField w key v) other = lookupField w other := by
  intro w key other v hne
  induction w with
  | nil => simp [setField, lookupField, Ne.symm hne]
  | cons kv rest ih =>
    obtain ⟨k, x⟩ := kv
    by_cases hk : k = key
    · subst hk
      simp [setField, lookupField, Ne.symm hne]
    · simp only [setField, if_neg hk, lookupField]
      by_cases hko : k = other
      · simp [hko]
      · simp [hko, ih]

/-- Updating a stored id and reading it back yields the new body. -/
theorem storeLookup_storeUpdate_self :
    ∀ (store : UpstreamStore) (workflowId : String) (body : WorkflowObj),
      (storeLookup store workflowId).isSome →
      storeLookup (storeUpdate store workflowId body) workflowId = some body := by
  intro store workflowId body h
  induction store with
  | nil => simp [storeLookup] at h
  | cons kv rest ih =>
    obtain ⟨k, w⟩ := kv
    by_cases hk : k = workflowId
    · simp [storeUpdate, hk, storeLookup]
    · simp only [storeLookup, if_neg hk] at h
      simp [storeUpdate, hk, storeLookup, ih h]

/-- Claim C9: `activate_workflow` immediately followed by
`deactivate_workflow` on the same id (no interleaving writer) leaves
the stored workflow equal to the original in every field except
`active`; each operation performs exactly two remote calls, a get
followed by a put of the fetched definition with `active` mutated. -/
theorem activate_deactivate_roundtrip :
    ∀ (store : UpstreamStore) (workflowId : String) (w : WorkflowObj),
      storeLookup store workflowId = some w →
      activate_workflow store workflowId =
        (.ok (storeUpdate store workflowId (setField w ("active") (.bool true)),
              setField w ("active") (.bool true)),
         [.get workflowId, .put workflowId (setField w ("active") (.bool true))]) ∧
      deactivate_workflow
          (storeUpdate store workflowId (setField w ("active") (.bool true))) workflowId =
        (.ok (storeUpdate (storeUpdate store workflowId (setField w ("active") (.bool true)))
                workflowId
                (setField (setField w ("active") (.bool true)) ("active") (.bool false)),
              setField (setField w ("active") (.bool true)) ("active") (.bool false)),
         [.get workflowId,
          .put workflowId
            (setField (setField w ("active") (.bool true)) ("active") (.bool false))]) ∧
      storeLookup
          (storeUpdate (storeUpdate store workflowId (setField w ("active") (.bool true)))
            workflowId
            (setField (setField w ("active") (.bool true)) ("active") (.bool false)))
          workflowId =
        some (setField (setField w ("active") (.bool true)) ("active") (.bool false)) ∧
      (∀ k, k ≠ "active" →
        lookupField (setField (setField w ("active") (.bool true)) ("active") (.bool false)) k =
          lookupField w k) ∧
      lookupField (setField (setField w ("active") (.bool true)) ("active") (.bool false))
          ("active") =
        some (.bool false) := by
  intro store workflowId w h
  have h1 : storeLookup
      (storeUpdate store workflowId (setField w ("active") (.bool true))) workflowId =
      some (setField w ("active") (.bool true)) :=
    storeLookup_storeUpdate_self store workflowId _ (by rw [h]; rfl)
  refine ⟨?_, ?_, ?_, ?_, ?_⟩
  · simp [activate_workflow, client_get_workflow, client_update_workflow, h]
  · simp [deactivate_workflow, client_get_workflow, client_update_workflow, h1]
  · exact storeLookup_storeUpdate_self _ workflowId _ (by rw [h1]; rfl)
  · intro k hk
    rw [lookupField_setField_ne _ _ _ _ hk, lookupField_setField_ne _ _ _ _ hk]
  · exact lookupField_setField_self _ _ _

/-- Witness for C9 at a one-workflow store: the activate trace is the
get followed by the put of the definition with `active` set. -/
theorem activate_deactivate_roundtrip_witness :
    (activate_workflow [("1", [("name", .str "A"), ("active", .bool false)])] ("1")).2 =
      [.get ("1"), .put ("1") [("name", .str "A"), ("active", .bool true)]] := by
  have h := activate_deactivate_roundtrip
    [("1", [("name", .str "A"), ("active", .bool false)])] ("1")
    [("name", .str "A"), ("active", .bool false)] (by decide)
  rw [h.1]
  decide

end MonolietMCP
